import Mathlib

/-!
Verification of the caching pass-through proxy (`server.js`) and its
multi-service health aggregator.  The JavaScript source is shallowly
embedded: JSON documents become an inductive type, `JSON.stringify` /
`JSON.parse` and the `md5` digest used by `makeKey` are implemented
executably, and the request handler becomes a pure function of the cache
store, the clock, and the outcomes of its I/O calls (redis read/write,
axios forward).
-/

namespace VroomProxy

/-! ### JSON documents

The proxy treats request/response bodies as opaque structured data
(`express.json()` output).  Numbers are modelled as integers. -/

inductive Json where
  | null
  | bool (b : Bool)
  | num (n : Int)
  | str (s : String)
  | arr (items : List Json)
  | obj (fields : List (String × Json))
  deriving Repr

/-! ### Decimal printing (JS number → string for integral values) -/

def digitChar (d : Nat) : Char := Char.ofNat (48 + d)

def natDigits (n : Nat) : List Char :=
  if h : n < 10 then [digitChar n]
  else natDigits (n / 10) ++ [digitChar (n % 10)]
termination_by n
decreasing_by
  exact Nat.div_lt_self (by omega) (by omega)

def natDec (n : Nat) : String := String.mk (natDigits n)

def intDec (n : Int) : String :=
  if n < 0 then "-" ++ natDec n.natAbs else natDec n.natAbs

/-! ### String escaping, as performed by `JSON.stringify` -/

def hexDigitChar (d : Nat) : Char :=
  if d < 10 then Char.ofNat (48 + d) else Char.ofNat (87 + d)

def byteToHex (b : Nat) : String :=
  String.mk [hexDigitChar (b / 16), hexDigitChar (b % 16)]

def escapeChar (c : Char) : String :=
  if c = '"' then "\\\""
  else if c = '\\' then "\\\\"
  else if c = '\x08' then "\\b"
  else if c = '\x0c' then "\\f"
  else if c = '\n' then "\\n"
  else if c = '\r' then "\\r"
  else if c = '\t' then "\\t"
  else if c.toNat < 32 then "\\u00" ++ byteToHex c.toNat
  else String.mk [c]

def escapeList : List Char → String
  | [] => ""
  | c :: cs => escapeChar c ++ escapeList cs

def quoteString (s : String) : String := "\"" ++ escapeList s.data ++ "\""

/-! ### `JSON.stringify` (no indentation argument, as in the source) -/

mutual

def stringify : Json → String
  | .null => "null"
  | .bool true => "true"
  | .bool false => "false"
  | .num n => intDec n
  | .str s => quoteString s
  | .arr items => "[" ++ stringifyItems items ++ "]"
  | .obj fields => "\x7b" ++ stringifyFields fields ++ "\x7d"

def stringifyItems : List Json → String
  | [] => ""
  | [v] => stringify v
  | v :: rest => stringify v ++ "," ++ stringifyItems rest

def stringifyFields : List (String × Json) → String
  | [] => ""
  | [(k, v)] => quoteString k ++ ":" ++ stringify v
  | (k, v) :: rest => quoteString k ++ ":" ++ stringify v ++ "," ++ stringifyFields rest

end

/-! ### UTF-8 bytes of a string (what `crypto.createHash("md5").update(str)`
hashes) -/

def utf8Char (c : Char) : List Nat :=
  let n := c.toNat
  if n < 128 then [n]
  else if n < 2048 then [192 + n / 64, 128 + n % 64]
  else if n < 65536 then [224 + n / 4096, 128 + n / 64 % 64, 128 + n % 64]
  else [240 + n / 262144, 128 + n / 4096 % 64, 128 + n / 64 % 64, 128 + n % 64]

def strBytes (s : String) : List Nat :=
  s.data.foldr (fun c acc => utf8Char c ++ acc) []

/-! ### MD5 (RFC 1321), over byte lists, with 32-bit words as `Nat` mod 2^32 -/

def w32 (n : Nat) : Nat := n % 4294967296

def rotl32 (x s : Nat) : Nat :=
  w32 (Nat.shiftLeft x s) ||| Nat.shiftRight x (32 - s)

def md5K : List Nat :=
  [3614090360, 3905402710, 606105819, 3250441966,
   4118548399, 1200080426, 2821735955, 4249261313,
   1770035416, 2336552879, 4294925233, 2304563134,
   1804603682, 4254626195, 2792965006, 1236535329,
   4129170786, 3225465664, 643717713, 3921069994,
   3593408605, 38016083, 3634488961, 3889429448,
   568446438, 3275163606, 4107603335, 1163531501,
   2850285829, 4243563512, 1735328473, 2368359562,
   4294588738, 2272392833, 1839030562, 4259657740,
   2763975236, 1272893353, 4139469664, 3200236656,
   681279174, 3936430074, 3572445317, 76029189,
   3654602809, 3873151461, 530742520, 3299628645,
   4096336452, 1126891415, 2878612391, 4237533241,
   1700485571, 2399980690, 4293915773, 2240044497,
   1873313359, 4264355552, 2734768916, 1309151649,
   4149444226, 3174756917, 718787259, 3951481745]

def md5S : List Nat :=
  [7, 12, 17, 22, 7, 12, 17, 22, 7, 12, 17, 22, 7, 12, 17, 22,
   5, 9, 14, 20, 5, 9, 14, 20, 5, 9, 14, 20, 5, 9, 14, 20,
   4, 11, 16, 23, 4, 11, 16, 23, 4, 11, 16, 23, 4, 11, 16, 23,
   6, 10, 15, 21, 6, 10, 15, 21, 6, 10, 15, 21, 6, 10, 15, 21]

def md5pad (msg : List Nat) : List Nat :=
  let len := msg.length
  let zeros := (120 - (len + 1) % 64) % 64
  let bitLen := (len * 8) % 18446744073709551616
  msg ++ [128] ++ List.replicate zeros 0 ++
    (List.range 8).map (fun i => bitLen / 256 ^ i % 256)

def toBlocks (l : List Nat) : List (List Nat) :=
  if h : l = [] then []
  else l.take 64 :: toBlocks (l.drop 64)
termination_by l.length
decreasing_by
  have hl : 0 < l.length := List.length_pos.mpr h
  simp only [List.length_drop]
  omega

def blockWords (b : List Nat) : List Nat :=
  (List.range 16).map fun j =>
    b.getD (4 * j) 0 + 256 * b.getD (4 * j + 1) 0 +
      65536 * b.getD (4 * j + 2) 0 + 16777216 * b.getD (4 * j + 3) 0

def md5F (b c d : Nat) : Nat := (b &&& c) ||| ((b ^^^ 4294967295) &&& d)
def md5G (b c d : Nat) : Nat := (d &&& b) ||| ((d ^^^ 4294967295) &&& c)
def md5H (b c d : Nat) : Nat := b ^^^ c ^^^ d
def md5I (b c d : Nat) : Nat := c ^^^ (b ||| (d ^^^ 4294967295))

def md5Step (M : List Nat) (st : Nat × Nat × Nat × Nat) (i : Nat) :
    Nat × Nat × Nat × Nat :=
  let (a, b, c, d) := st
  let fg : Nat × Nat :=
    if i < 16 then (md5F b c d, i)
    else if i < 32 then (md5G b c d, (5 * i + 1) % 16)
    else if i < 48 then (md5H b c d, (3 * i + 5) % 16)
    else (md5I b c d, (7 * i) % 16)
  let f := w32 (fg.1 + a + md5K.getD i 0 + M.getD fg.2 0)
  (d, w32 (b + rotl32 f (md5S.getD i 0)), b, c)

def md5Block (st : Nat × Nat × Nat × Nat) (block : List Nat) :
    Nat × Nat × Nat × Nat :=
  let M := blockWords block
  let r := (List.range 64).foldl (md5Step M) st
  (w32 (st.1 + r.1), w32 (st.2.1 + r.2.1),
   w32 (st.2.2.1 + r.2.2.1), w32 (st.2.2.2 + r.2.2.2))

def wordLE (x : Nat) : List Nat :=
  [x % 256, x / 256 % 256, x / 65536 % 256, x / 16777216 % 256]

def md5Bytes (msg : List Nat) : List Nat :=
  let r := (toBlocks (md5pad msg)).foldl md5Block
    (1732584193, 4023233417, 2562383102, 271733878)
  wordLE r.1 ++ wordLE r.2.1 ++ wordLE r.2.2.1 ++ wordLE r.2.2.2

def bytesToHex : List Nat → String
  | [] => ""
  | b :: rest => byteToHex b ++ bytesToHex rest

def md5hex (s : String) : String := bytesToHex (md5Bytes (strBytes s))

/-! ### Cache-key derivation (`makeKey` in `server.js`) -/

def makeKey (body : Json) : String := "vroom:" ++ md5hex (stringify body)

/-! ### JavaScript value coercions used by the handler -/

/-- JS `typeof x === "object"`: true for objects, arrays and `null`. -/
def jsTypeofObject : Json → Bool
  | .null => true
  | .arr _ => true
  | .obj _ => true
  | _ => false

mutual

/-- JS `String(x)` coercion. -/
def jsString : Json → String
  | .null => "null"
  | .bool true => "true"
  | .bool false => "false"
  | .num n => intDec n
  | .str s => s
  | .arr items => jsStringItems items
  | .obj _ => "[object Object]"

def jsStringItems : List Json → String
  | [] => ""
  | [v] => jsString v
  | v :: rest => jsString v ++ "," ++ jsStringItems rest

end

/-- JS `a || b` where `a` may be absent (`undefined`) or an empty (falsy)
string. -/
def jsOrD (a : Option String) (b : String) : String :=
  match a with
  | some s => if s = "" then b else s
  | none => b

/-- JS `a || b` on strings (empty string is falsy). -/
def jsOrS (a b : String) : String := if a = "" then b else a

/-! ### The cache store (redis) -/

/-- A redis store: association list of key, stored string, absolute expiry
time (seconds).  `setEx` entries expire at write-time + TTL. -/
def Store := List (String × String × Nat)

/-- Model of `redis.get key` at time `now`: the stored value, unless absent or
expired. -/
def storeGet (s : Store) (k : String) (now : Nat) : Option String :=
  match s.find? (fun e => e.1 == k) with
  | some (_, v, exp) => if now < exp then some v else none
  | none => none

/-- Model of `redis.setEx key ttl val` at time `now`: overwrite the key with the
value, expiring `ttl` seconds later. -/
def storeSetEx (s : Store) (k : String) (ttl : Nat) (v : String) (now : Nat) :
    Store :=
  (k, v, now + ttl) :: s.filter (fun e => !(e.1 == k))

/-! ### The upstream forward (axios) and JS errors -/

/-- What the upstream does for one HTTP call: either it responds with some
status and body, or the transport fails (connection refused, DNS failure,
timeout) with an error code/message and no response. -/
inductive UpstreamBehavior where
  | responds (status : Nat) (body : Json)
  | transport (code : Option String) (message : String)

structure AxiosResponse where
  status : Nat
  data : Json

/-- The fields of a thrown JS error that the handler's catch block
inspects. -/
structure JsError where
  isAxiosError : Bool
  response : Option AxiosResponse
  request : Bool
  code : Option String
  message : String

/-- Model of `axios.post(VROOM_URL, body, { timeout: 60_000, validateStatus: () =>
true })`: every received response resolves (any status); only transport
failures reject, with an axios error carrying `request` but no
`response`. -/
def axiosPostAlways (u : UpstreamBehavior) : Except JsError AxiosResponse :=
  match u with
  | .responds st d => .ok ⟨st, d⟩
  | .transport code msg => .error ⟨true, none, true, code, msg⟩

/-- Model of `axios` with a `validateStatus` predicate: a received response whose
status fails the predicate rejects with `ERR_BAD_RESPONSE`, carrying the
response. -/
def axiosValidate (validate : Nat → Bool) (u : UpstreamBehavior) :
    Except JsError AxiosResponse :=
  match u with
  | .responds st d =>
    if validate st then .ok ⟨st, d⟩
    else .error ⟨true, some ⟨st, d⟩, true, some "ERR_BAD_RESPONSE",
      "Request failed with status code " ++ natDec st⟩
  | .transport code msg => .error ⟨true, none, true, code, msg⟩

/-! ### The POST / handler (`app.post("/")` in `server.js`) -/

/-- The client-visible response: status, JSON body, and the `X-Cache`
header if one was set before the response was sent. -/
structure HandlerResponse where
  status : Nat
  body : Json
  xCache : Option String

/-- One run of the handler: the response sent, the cache store afterwards,
and whether the upstream forward was attempted. -/
structure HandlerTrace where
  response : HandlerResponse
  store : Store
  forwarded : Bool

/-- The catch block (lines 60–96 of `server.js`): axios error with a
response → pass the upstream status/body through (wrapping non-object
bodies); axios error with only a request → 502 bad gateway with a failure
code; anything else → 500 generic. -/
def catchErr (err : JsError) : Nat × Json :=
  if err.isAxiosError then
    match err.response with
    | some r =>
      (r.status,
        if jsTypeofObject r.data then r.data
        else .obj [("error", .str (jsString r.data))])
    | none =>
      if err.request then
        (502, .obj [("error", .str "Bad gateway to VROOM"),
                    ("code", .str (jsOrD err.code "EAXIOS"))])
      else (500, .obj [("error", .str "Internal server error")])
  else (500, .obj [("error", .str "Internal server error")])

/-! ### `JSON.parse`

Model of `JSON.parse`, restricted to the whitespace-free documents with
integral numbers that this model's `stringify` emits — the only strings the
system ever parses are `JSON.stringify` outputs read back from the cache.
Returns `none` where `JSON.parse` would throw. -/

def hexVal (c : Char) : Option Nat :=
  if 48 ≤ c.toNat ∧ c.toNat ≤ 57 then some (c.toNat - 48)
  else if 97 ≤ c.toNat ∧ c.toNat ≤ 102 then some (c.toNat - 87)
  else if 65 ≤ c.toNat ∧ c.toNat ≤ 70 then some (c.toNat - 55)
  else none

def unescapeChar (e : Char) : Option Char :=
  if e = '"' then some '"'
  else if e = '\\' then some '\\'
  else if e = '/' then some '/'
  else if e = 'b' then some '\x08'
  else if e = 'f' then some '\x0c'
  else if e = 'n' then some '\n'
  else if e = 'r' then some '\r'
  else if e = 't' then some '\t'
  else none

/-- Parse the remainder of a string literal (after the opening quote). -/
def parseStringRest : List Char → Option (String × List Char)
  | [] => none
  | '"' :: rest => some ("", rest)
  | '\\' :: 'u' :: h1 :: h2 :: h3 :: h4 :: rest =>
    match hexVal h1, hexVal h2, hexVal h3, hexVal h4 with
    | some a, some b, some c2, some d =>
      let n := a * 4096 + b * 256 + c2 * 16 + d
      if n.isValidChar then
        (parseStringRest rest).map
          fun p => (String.mk (Char.ofNat n :: p.1.data), p.2)
      else none
    | _, _, _, _ => none
  | '\\' :: e :: rest =>
    match unescapeChar e with
    | some u =>
      (parseStringRest rest).map fun p => (String.mk (u :: p.1.data), p.2)
    | none => none
  | c :: rest =>
    if c = '\\' then none
    else if c.toNat < 32 then none
    else (parseStringRest rest).map fun p => (String.mk (c :: p.1.data), p.2)

/-- Value of a digit run. -/
def digitsVal (ds : List Char) : Nat :=
  ds.foldl (fun a c => a * 10 + (c.toNat - 48)) 0

/-- Parse a run of decimal digits. -/
def parseNat (cs : List Char) : Option (Nat × List Char) :=
  let ds := cs.takeWhile Char.isDigit
  if ds.isEmpty then none
  else some (digitsVal ds, cs.dropWhile Char.isDigit)

mutual

def parseValue : Nat → List Char → Option (Json × List Char)
  | 0, _ => none
  | _ + 1, 'n' :: 'u' :: 'l' :: 'l' :: rest => some (.null, rest)
  | _ + 1, 't' :: 'r' :: 'u' :: 'e' :: rest => some (.bool true, rest)
  | _ + 1, 'f' :: 'a' :: 'l' :: 's' :: 'e' :: rest => some (.bool false, rest)
  | _ + 1, '"' :: rest => (parseStringRest rest).map fun p => (.str p.1, p.2)
  | fuel + 1, '[' :: rest => (parseItems fuel rest).map fun p => (.arr p.1, p.2)
  | fuel + 1, '\x7b' :: rest =>
    (parseFields fuel rest).map fun p => (.obj p.1, p.2)
  | _ + 1, '-' :: rest => (parseNat rest).map fun p => (.num (-(p.1 : Int)), p.2)
  | _ + 1, cs => (parseNat cs).map fun p => (.num (p.1 : Int), p.2)

def parseItems : Nat → List Char → Option (List Json × List Char)
  | 0, _ => none
  | _ + 1, ']' :: rest => some ([], rest)
  | fuel + 1, cs =>
    match parseValue fuel cs with
    | some (v, ',' :: r) => (parseItems fuel r).map fun p => (v :: p.1, p.2)
    | some (v, ']' :: r) => some ([v], r)
    | _ => none

def parseFields : Nat → List Char →
    Option (List (String × Json) × List Char)
  | 0, _ => none
  | _ + 1, '\x7d' :: rest => some ([], rest)
  | fuel + 1, '"' :: rest =>
    match parseStringRest rest with
    | some (k, ':' :: r2) =>
      match parseValue fuel r2 with
      | some (v, ',' :: r3) =>
        (parseFields fuel r3).map fun p => ((k, v) :: p.1, p.2)
      | some (v, '\x7d' :: r3) => some ([(k, v)], r3)
      | _ => none
    | _ => none
  | _ + 1, _ => none

end

def parseJson (s : String) : Option Json :=
  match parseValue (s.length + 1) s.data with
  | some (v, []) => some v
  | _ => none

/-! Fuel bounds for the parser on canonical serializations. -/

mutual

def needed : Json → Nat
  | .null => 1
  | .bool _ => 1
  | .num _ => 1
  | .str _ => 1
  | .arr items => 1 + neededItems items
  | .obj fields => 1 + neededFields fields

def neededItems : List Json → Nat
  | [] => 1
  | v :: rest => 1 + max (needed v) (neededItems rest)

def neededFields : List (String × Json) → Nat
  | [] => 1
  | (_, v) :: rest => 1 + max (needed v) (neededFields rest)

end

/-- After a serialized number, the next character must not extend the
digit run. -/
def numHeadSafe : Json → List Char → Prop
  | .num _, c :: _ => c.isDigit = false
  | _, _ => True

/-- The first character of `rest` does not continue a digit run. -/
def headNotDigit : List Char → Prop
  | [] => True
  | c :: _ => c.isDigit = false

/-- One element's round-trip property, as assumed by the list lemmas. -/
def ValueRT (x : Json) : Prop :=
  ∀ (fuel : Nat) (rest : List Char), needed x ≤ fuel → numHeadSafe x rest →
    parseValue fuel ((stringify x).data ++ rest) = some (x, rest)

/-- Lines 45–59: forward to VROOM; cache the body (serialized, TTL 3600)
only when the status is exactly 200; respond with the upstream status and
body tagged `MISS`.  A transport failure or a throwing `setEx` falls into
the catch block (no `X-Cache` header was set yet). -/
def forwardPath (store : Store) (now : Nat) (key : String)
    (upstream : UpstreamBehavior) (writeErr : Option String) : HandlerTrace :=
  match axiosPostAlways upstream with
  | .error e =>
    let r := catchErr e
    ⟨⟨r.1, r.2, none⟩, store, true⟩
  | .ok vroomRes =>
    if vroomRes.status = 200 then
      match writeErr with
      | some m =>
        let r := catchErr ⟨false, none, false, none, m⟩
        ⟨⟨r.1, r.2, none⟩, store, true⟩
      | none =>
        ⟨⟨vroomRes.status, vroomRes.data, some "MISS"⟩,
          storeSetEx store key 3600 (stringify vroomRes.data) now, true⟩
    else ⟨⟨vroomRes.status, vroomRes.data, some "MISS"⟩, store, true⟩

/-- The whole request handler.  `readErr`/`writeErr` model a throwing
`redis.get`/`redis.setEx` (store unreachable); `upstream` models the
single axios call.  JS truthiness: an empty cached string is falsy, so it
falls through to the forward path.  A cached string `JSON.parse` rejects
is thrown after the `X-Cache: HIT` header was set, landing in the catch
block. -/
def handlePost (store : Store) (now : Nat) (body : Json)
    (readErr : Option String) (upstream : UpstreamBehavior)
    (writeErr : Option String) : HandlerTrace :=
  let key := makeKey body
  match readErr with
  | some m =>
    let r := catchErr ⟨false, none, false, none, m⟩
    ⟨⟨r.1, r.2, none⟩, store, false⟩
  | none =>
    match storeGet store key now with
    | some cached =>
      if cached = "" then forwardPath store now key upstream writeErr
      else
        match parseJson cached with
        | some v => ⟨⟨200, v, some "HIT"⟩, store, false⟩
        | none =>
          let r := catchErr ⟨false, none, false, none,
            "Unexpected token in JSON"⟩
          ⟨⟨r.1, r.2, some "HIT"⟩, store, false⟩
    | none => forwardPath store now key upstream writeErr

/-! ### Health checks (`checkOSRMHealth`, `checkVroomHealth`,
`checkRedisHealth`, `app.get("/health")`) -/

def VROOM_URL : String := "http://vroom:3000"
def REDIS_URL : String := "redis://redis:6379"

/-- One probe's result, as placed in the health report. -/
structure HealthCheckResult where
  service : Option String
  profile : Option String
  url : String
  status : Nat
  ok : Bool
  message : String
  deriving Repr, DecidableEq

/-- Source `checkOSRMHealth`: GET a fixed test route with a 5-second timeout and
`validateStatus: (status) => status < 500`; a resolved response reports its
own status with `ok = status < 400`; a thrown error (transport failure, or
a 5xx response rejected by `validateStatus`) reports status 0 with
`error.code || error.message || "Connection failed"`. -/
def checkOSRMHealth (baseUrl profile : String) (u : UpstreamBehavior) :
    HealthCheckResult :=
  match axiosValidate (fun st => decide (st < 500)) u with
  | .ok response =>
    ⟨none, some profile, baseUrl, response.status, decide (response.status < 400),
      if response.status < 400 then "OK" else "HTTP " ++ natDec response.status⟩
  | .error e =>
    ⟨none, some profile, baseUrl, 0, false,
      jsOrD e.code (jsOrS e.message "Connection failed")⟩

/-- Source `checkVroomHealth`: POST a minimal synthetic optimization request (one
vehicle, one job, abstracted here) with the same timeout/`validateStatus`
rule, reporting under `service: "vroom"`. -/
def checkVroomHealth (baseUrl profile : String) (u : UpstreamBehavior) :
    HealthCheckResult :=
  match axiosValidate (fun st => decide (st < 500)) u with
  | .ok response =>
    ⟨some "vroom", some profile, baseUrl, response.status,
      decide (response.status < 400),
      if response.status < 400 then "OK" else "HTTP " ++ natDec response.status⟩
  | .error e =>
    ⟨some "vroom", some profile, baseUrl, 0, false,
      jsOrD e.code (jsOrS e.message "Connection failed")⟩

/-- Source `checkRedisHealth`: `redis.ping()`; ok iff it returned `"PONG"`; a
thrown error reports status 0 with `error.message || "Connection failed"`. -/
def checkRedisHealth (ping : Except String String) : HealthCheckResult :=
  match ping with
  | .ok pong =>
    ⟨some "redis", none, REDIS_URL, 200, pong == "PONG",
      if pong == "PONG" then "OK" else "Unexpected ping response"⟩
  | .error m => ⟨some "redis", none, REDIS_URL, 0, false, jsOrS m "Connection failed"⟩

/-- The composite health report returned by `app.get("/health")`. -/
structure HealthReport where
  ok : Bool
  vroom_profiles : List HealthCheckResult
  redis : HealthCheckResult
  osrm_profiles : List HealthCheckResult

/-- The `/health` endpoint: two OSRM probes, two VROOM profile probes and
the redis probe (all fanned out concurrently in the source), with
`ok := every probe's ok`. -/
def healthEndpoint (o1 o2 v1 v2 : UpstreamBehavior)
    (ping : Except String String) : HealthReport :=
  let osrmChecks := [checkOSRMHealth "http://osrm-motorbike:5000" "motorbike" o1,
                     checkOSRMHealth "http://osrm-small-truck:5000" "smalltruck" o2]
  let vroomChecks := [checkVroomHealth VROOM_URL "motorbike" v1,
                      checkVroomHealth VROOM_URL "smalltruck" v2]
  let redisCheck := checkRedisHealth ping
  let allHealthy := (osrmChecks ++ vroomChecks ++ [redisCheck]).all (·.ok)
  ⟨allHealthy, vroomChecks, redisCheck, osrmChecks⟩

/-- A store with one live entry for the key of `Json.null`. -/
def hitStore : Store := [(makeKey Json.null, "null", 5)]

/-! ## Basic lemmas -/

theorem byteToHex_length (b : Nat) : (byteToHex b).length = 2 := rfl

theorem md5Bytes_length (m : List Nat) : (md5Bytes m).length = 16 := by
  simp [md5Bytes, wordLE]

theorem bytesToHex_length (bs : List Nat) :
    (bytesToHex bs).length = 2 * bs.length := by
  induction bs with
  | nil => rfl
  | cons b rest ih =>
    simp [bytesToHex, String.length_append, byteToHex_length, ih]
    omega

theorem md5hex_length (s : String) : (md5hex s).length = 32 := by
  simp [md5hex, bytesToHex_length, md5Bytes_length]

theorem storeGet_none_mono (s : Store) (k : String) (t t' : Nat)
    (h : storeGet s k t = none) (htt : t ≤ t') : storeGet s k t' = none := by
  unfold storeGet at h ⊢
  cases hf : s.find? (fun e => e.1 == k) with
  | none => rfl
  | some e =>
    obtain ⟨k', v, exp⟩ := e
    rw [hf] at h
    replace h : (if t < exp then some v else none) = none := h
    show (if t' < exp then some v else none) = none
    by_cases hlt : t < exp
    · simp [hlt] at h
    · simp [show ¬ t' < exp by omega]

theorem jsOrD_ne_empty (code : Option String) : jsOrD code "EAXIOS" ≠ "" := by
  unfold jsOrD
  cases code with
  | none => decide
  | some s =>
    by_cases hs : s = ""
    · simp [hs]
    · simp [hs]

/-! ## Decimal printing and scanning -/

theorem digitChar_isDigit (d : Nat) (h : d < 10) :
    (digitChar d).isDigit = true := by
  interval_cases d <;> decide

theorem digitChar_toNat (d : Nat) (h : d < 10) :
    (digitChar d).toNat = 48 + d := by
  interval_cases d <;> decide

theorem natDigits_ne_nil (n : Nat) : natDigits n ≠ [] := by
  unfold natDigits
  by_cases h : n < 10 <;> simp [h]

theorem natDigits_all_digits (n : Nat) :
    ∀ c ∈ natDigits n, c.isDigit = true := by
  induction n using Nat.strong_induction_on with
  | _ n ih =>
    unfold natDigits
    by_cases h : n < 10
    · simp [h]
      exact digitChar_isDigit n h
    · simp [h]
      intro c hc
      rcases hc with hc | hc
      · exact ih (n / 10) (Nat.div_lt_self (by omega) (by omega)) c hc
      · rw [hc]
        exact digitChar_isDigit (n % 10) (Nat.mod_lt _ (by omega))

theorem digitsVal_natDigits (n : Nat) : digitsVal (natDigits n) = n := by
  induction n using Nat.strong_induction_on with
  | _ n ih =>
    unfold natDigits
    by_cases h : n < 10
    · simp [h, digitsVal, digitChar_toNat n h]
    · simp only [h, if_false, dite_false]
      unfold digitsVal at ih ⊢
      rw [List.foldl_append]
      simp [ih (n / 10) (Nat.div_lt_self (by omega) (by omega)),
        digitChar_toNat (n % 10) (Nat.mod_lt _ (by omega))]
      omega

theorem takeWhile_append_all {p : Char → Bool} (l r : List Char)
    (hl : ∀ c ∈ l, p c = true)
    (hr : match r with | [] => True | c :: _ => p c = false) :
    (l ++ r).takeWhile p = l ∧ (l ++ r).dropWhile p = r := by
  induction l with
  | nil =>
    simp only [List.nil_append]
    cases r with
    | nil => simp
    | cons c r' =>
      simp only [headNotDigit] at hr
      simp [List.takeWhile, List.dropWhile, hr]
  | cons c l' ihl =>
    have hc : p c = true := hl c (by simp)
    have ih := ihl (fun x hx => hl x (by simp [hx]))
    simp [List.takeWhile, List.dropWhile, hc, ih.1, ih.2]

theorem parseNat_spec (n : Nat) (rest : List Char)
    (hrest : headNotDigit rest) :
    parseNat (natDigits n ++ rest) = some (n, rest) := by
  have htw := takeWhile_append_all (p := Char.isDigit) (natDigits n) rest
    (natDigits_all_digits n) (by cases rest <;> simp_all [headNotDigit])
  unfold parseNat
  rw [htw.1, htw.2]
  simp [natDigits_ne_nil n, List.isEmpty_iff, digitsVal_natDigits n]

/-! ## String-literal round-trip -/

theorem hexVal_hexDigitChar (d : Nat) (h : d < 16) :
    hexVal (hexDigitChar d) = some d := by
  interval_cases d <;> decide

theorem toNat_isValidChar (c : Char) : c.toNat.isValidChar := c.valid

theorem parseStringRest_escape (cs : List Char) (rest : List Char) :
    parseStringRest ((escapeList cs).data ++ '"' :: rest) =
      some (String.mk cs, rest) := by
  induction cs with
  | nil =>
    show parseStringRest ('"' :: rest) = some (String.mk [], rest)
    simp [parseStringRest]
  | cons c cs' ih =>
    show parseStringRest ((escapeChar c ++ escapeList cs').data ++ '"' :: rest)
      = _
    rw [String.data_append, List.append_assoc]
    unfold escapeChar
    by_cases h1 : c = '"'
    · subst h1
      rw [if_pos rfl]
      show parseStringRest
        ('\\' :: '"' :: ((escapeList cs').data ++ '"' :: rest)) = _
      simp [parseStringRest, unescapeChar, ih]
    · rw [if_neg h1]
      by_cases h2 : c = '\\'
      · subst h2
        rw [if_pos rfl]
        show parseStringRest
          ('\\' :: '\\' :: ((escapeList cs').data ++ '"' :: rest)) = _
        simp [parseStringRest, unescapeChar, ih]
      · rw [if_neg h2]
        by_cases h3 : c = '\x08'
        · subst h3
          rw [if_pos rfl]
          show parseStringRest
            ('\\' :: 'b' :: ((escapeList cs').data ++ '"' :: rest)) = _
          simp [parseStringRest, unescapeChar, ih]
        · rw [if_neg h3]
          by_cases h4 : c = '\x0c'
          · subst h4
            rw [if_pos rfl]
            show parseStringRest
              ('\\' :: 'f' :: ((escapeList cs').data ++ '"' :: rest)) = _
            simp [parseStringRest, unescapeChar, ih]
          · rw [if_neg h4]
            by_cases h5 : c = '\n'
            · subst h5
              rw [if_pos rfl]
              show parseStringRest
                ('\\' :: 'n' :: ((escapeList cs').data ++ '"' :: rest)) = _
              simp [parseStringRest, unescapeChar, ih]
            · rw [if_neg h5]
              by_cases h6 : c = '\r'
              · subst h6
                rw [if_pos rfl]
                show parseStringRest
                  ('\\' :: 'r' :: ((escapeList cs').data ++ '"' :: rest)) = _
                simp [parseStringRest, unescapeChar, ih]
              · rw [if_neg h6]
                by_cases h7 : c = '\t'
                · subst h7
                  rw [if_pos rfl]
                  show parseStringRest
                    ('\\' :: 't' :: ((escapeList cs').data ++ '"' :: rest)) = _
                  simp [parseStringRest, unescapeChar, ih]
                · rw [if_neg h7]
                  by_cases h8 : c.toNat < 32
                  · rw [if_pos h8]
                    have hv1 : hexVal (hexDigitChar (c.toNat / 16)) =
                        some (c.toNat / 16) :=
                      hexVal_hexDigitChar _ (by omega)
                    have hv2 : hexVal (hexDigitChar (c.toNat % 16)) =
                        some (c.toNat % 16) :=
                      hexVal_hexDigitChar _ (Nat.mod_lt _ (by omega))
                    have h0 : hexVal '0' = some 0 := rfl
                    show parseStringRest
                      ('\\' :: 'u' :: '0' :: '0' ::
                        hexDigitChar (c.toNat / 16) ::
                        hexDigitChar (c.toNat % 16) ::
                        ((escapeList cs').data ++ '"' :: rest)) = _
                    simp only [parseStringRest, h0, hv1, hv2]
                    rw [show 0 * 4096 + 0 * 256 + c.toNat / 16 * 16 +
                        c.toNat % 16 = c.toNat by omega]
                    rw [if_pos (toNat_isValidChar c), ih]
                    simp [Char.ofNat_toNat]
                  · rw [if_neg h8]
                    show parseStringRest
                      (c :: ((escapeList cs').data ++ '"' :: rest)) = _
                    simp [parseStringRest, h1, h2, h8, ih]

/-! ## Serialization shape lemmas -/

theorem mk_data (s : String) : String.mk s.data = s := rfl

theorem strlen_data (s : String) : s.length = s.data.length := rfl

theorem length_dash : ("-" : String).length = 1 := rfl
theorem length_quote : ("\"" : String).length = 1 := rfl
theorem length_lbrack : ("[" : String).length = 1 := rfl
theorem length_rbrack : ("]" : String).length = 1 := rfl
theorem length_lbrace : ("\x7b" : String).length = 1 := rfl
theorem length_rbrace : ("\x7d" : String).length = 1 := rfl
theorem length_comma : ("," : String).length = 1 := rfl
theorem length_colon : (":" : String).length = 1 := rfl

theorem data_quote : ("\"" : String).data = ['"'] := rfl
theorem data_colon : (":" : String).data = [':'] := rfl
theorem data_comma : ("," : String).data = [','] := rfl

theorem intDec_length_pos (n : Int) : 0 < (intDec n).length := by
  unfold intDec
  split
  · rw [String.length_append, length_dash]
    omega
  · show 0 < (String.mk (natDigits n.natAbs)).length
    rw [strlen_data]
    exact List.length_pos.mpr (natDigits_ne_nil _)

theorem natDigits_head (n : Nat) :
    ∃ c l, natDigits n = c :: l ∧ c.isDigit = true := by
  cases hd : natDigits n with
  | nil => exact absurd hd (natDigits_ne_nil n)
  | cons c l =>
    exact ⟨c, l, rfl, natDigits_all_digits n c (by rw [hd]; simp)⟩

theorem digit_head_cases (c : Char) (h : c.isDigit = true) :
    c ≠ 'n' ∧ c ≠ 't' ∧ c ≠ 'f' ∧ c ≠ '"' ∧ c ≠ '[' ∧ c ≠ '\x7b' ∧
      c ≠ '-' ∧ c ≠ ']' ∧ c ≠ '\x7d' ∧ c ≠ ',' := by
  refine ⟨?_, ?_, ?_, ?_, ?_, ?_, ?_, ?_, ?_, ?_⟩ <;>
    (intro he; subst he; exact absurd h (by decide))

theorem stringify_head (v : Json) :
    ∃ c l, (stringify v).data = c :: l ∧ c ≠ ']' ∧ c ≠ '\x7d' := by
  cases v with
  | null => exact ⟨'n', _, rfl, by decide, by decide⟩
  | bool b =>
    cases b with
    | false => exact ⟨'f', _, rfl, by decide, by decide⟩
    | true => exact ⟨'t', _, rfl, by decide, by decide⟩
  | num n =>
    show ∃ c l, (intDec n).data = c :: l ∧ _
    unfold intDec
    split
    · exact ⟨'-', _, rfl, by decide, by decide⟩
    · obtain ⟨c, l, hd, hc⟩ := natDigits_head n.natAbs
      refine ⟨c, l, ?_, (digit_head_cases c hc).2.2.2.2.2.2.2.1,
        (digit_head_cases c hc).2.2.2.2.2.2.2.2.1⟩
      show natDigits n.natAbs = c :: l
      exact hd
  | str s => exact ⟨'"', _, rfl, by decide, by decide⟩
  | arr items => exact ⟨'[', _, rfl, by decide, by decide⟩
  | obj fields => exact ⟨'\x7b', _, rfl, by decide, by decide⟩

theorem stringify_length_pos (v : Json) : 0 < (stringify v).length := by
  obtain ⟨c, l, hd, -, -⟩ := stringify_head v
  rw [strlen_data, hd]
  simp

theorem stringify_ne_empty (v : Json) : stringify v ≠ "" := by
  intro h
  have := stringify_length_pos v
  rw [h] at this
  exact absurd this (by decide)

theorem needed_pos (v : Json) : 1 ≤ needed v := by
  cases v <;> simp [needed]

theorem neededItems_pos (xs : List Json) : 1 ≤ neededItems xs := by
  cases xs <;> simp [neededItems]

theorem neededFields_pos (fs : List (String × Json)) : 1 ≤ neededFields fs := by
  cases fs with
  | nil => simp [neededFields]
  | cons f t =>
    obtain ⟨k, v⟩ := f
    simp [neededFields]

mutual

theorem needed_le (v : Json) : needed v ≤ (stringify v).length := by
  cases v with
  | null => decide
  | bool b => cases b <;> decide
  | num n =>
    have h := intDec_length_pos n
    have hn : needed (Json.num n) = 1 := rfl
    show needed (.num n) ≤ (intDec n).length
    omega
  | str s =>
    have hn : needed (Json.str s) = 1 := rfl
    show needed (.str s) ≤ ("\"" ++ escapeList s.data ++ "\"").length
    rw [String.length_append, String.length_append, length_quote]
    omega
  | arr items =>
    have h := neededItems_le items
    show 1 + neededItems items ≤ ("[" ++ stringifyItems items ++ "]").length
    rw [String.length_append, String.length_append, length_lbrack,
      length_rbrack]
    omega
  | obj fields =>
    have h := neededFields_le fields
    show 1 + neededFields fields ≤
      ("\x7b" ++ stringifyFields fields ++ "\x7d").length
    rw [String.length_append, String.length_append, length_lbrace,
      length_rbrace]
    omega

theorem neededItems_le (xs : List Json) :
    neededItems xs ≤ 1 + (stringifyItems xs).length := by
  cases xs with
  | nil => decide
  | cons v t =>
    have h1 := needed_le v
    have h2 := stringify_length_pos v
    cases t with
    | nil =>
      have he : neededItems ([] : List Json) = 1 := rfl
      show 1 + max (needed v) (neededItems []) ≤ 1 + (stringify v).length
      omega
    | cons w u =>
      have h3 := neededItems_le (w :: u)
      show 1 + max (needed v) (neededItems (w :: u)) ≤
        1 + (stringify v ++ "," ++ stringifyItems (w :: u)).length
      rw [String.length_append, String.length_append, length_comma]
      omega

theorem neededFields_le (fs : List (String × Json)) :
    neededFields fs ≤ 1 + (stringifyFields fs).length := by
  cases fs with
  | nil => decide
  | cons f t =>
    obtain ⟨k, v⟩ := f
    have h1 := needed_le v
    have h2 := stringify_length_pos v
    cases t with
    | nil =>
      have he : neededFields ([] : List (String × Json)) = 1 := rfl
      show 1 + max (needed v) (neededFields []) ≤
        1 + (quoteString k ++ ":" ++ stringify v).length
      rw [String.length_append, String.length_append, length_colon]
      omega
    | cons g u =>
      have h3 := neededFields_le (g :: u)
      show 1 + max (needed v) (neededFields (g :: u)) ≤
        1 + (quoteString k ++ ":" ++ stringify v ++ "," ++
          stringifyFields (g :: u)).length
      rw [String.length_append, String.length_append, String.length_append,
        String.length_append, length_colon, length_comma]
      omega

end

theorem numHeadSafe_cons (v : Json) (c : Char) (hc : c.isDigit = false)
    (l : List Char) : numHeadSafe v (c :: l) := by
  cases v <;> simp [numHeadSafe, hc]

theorem numHeadSafe_nil (v : Json) : numHeadSafe v [] := by
  cases v <;> simp [numHeadSafe]

/-! ## The parser inverts the canonical serialization -/

theorem parseItems_rt_aux : ∀ xs : List Json, (∀ x ∈ xs, ValueRT x) →
    ∀ (fuel : Nat) (rest : List Char), neededItems xs ≤ fuel →
      parseItems fuel ((stringifyItems xs).data ++ ']' :: rest) =
        some (xs, rest) := by
  intro xs
  induction xs with
  | nil =>
    intro hP fuel rest hfuel
    obtain ⟨g, rfl⟩ : ∃ g, fuel = g + 1 :=
      ⟨fuel - 1, by have := neededItems_pos ([] : List Json); omega⟩
    show parseItems (g + 1) (']' :: rest) = some ([], rest)
    simp [parseItems]
  | cons x t ih =>
    intro hP fuel rest hfuel
    obtain ⟨g, rfl⟩ : ∃ g, fuel = g + 1 :=
      ⟨fuel - 1, by have := neededItems_pos (x :: t); omega⟩
    obtain ⟨c, l, hd, hcr, hcb⟩ := stringify_head x
    have hmax : needed x ≤ g ∧ neededItems t ≤ g := by
      have hne : neededItems (x :: t) = 1 + max (needed x) (neededItems t) :=
        rfl
      constructor <;> omega
    cases t with
    | nil =>
      have hv := hP x (by simp) g (']' :: rest) hmax.1
        (numHeadSafe_cons x ']' (by decide) rest)
      show parseItems (g + 1) ((stringify x).data ++ ']' :: rest) =
        some ([x], rest)
      rw [hd, List.cons_append]
      have hv' : parseValue g (c :: (l ++ ']' :: rest)) =
          some (x, ']' :: rest) := by
        rw [← List.cons_append, ← hd]
        exact hv
      simp [parseItems, hcr, hv']
    | cons y u =>
      have hv := hP x (by simp) g
        (',' :: ((stringifyItems (y :: u)).data ++ ']' :: rest)) hmax.1
        (numHeadSafe_cons x ',' (by decide) _)
      have hrec := ih (fun z hz => hP z (List.mem_cons_of_mem x hz)) g rest
        hmax.2
      show parseItems (g + 1)
        ((((stringify x).data ++ [',']) ++ (stringifyItems (y :: u)).data) ++
          ']' :: rest) = some (x :: y :: u, rest)
      rw [List.append_assoc, List.append_assoc]
      simp only [List.singleton_append]
      rw [hd, List.cons_append]
      have hv' : parseValue g
          (c :: (l ++ ',' :: ((stringifyItems (y :: u)).data ++ ']' :: rest)))
          = some (x, ',' :: ((stringifyItems (y :: u)).data ++ ']' :: rest))
          := by
        rw [← List.cons_append, ← hd]
        exact hv
      simp [parseItems, hcr, hv', hrec]

theorem parseFields_rt_aux : ∀ fs : List (String × Json),
    (∀ kv ∈ fs, ValueRT kv.2) →
    ∀ (fuel : Nat) (rest : List Char), neededFields fs ≤ fuel →
      parseFields fuel ((stringifyFields fs).data ++ '\x7d' :: rest) =
        some (fs, rest) := by
  intro fs
  induction fs with
  | nil =>
    intro hP fuel rest hfuel
    obtain ⟨g, rfl⟩ : ∃ g, fuel = g + 1 :=
      ⟨fuel - 1,
        by have := neededFields_pos ([] : List (String × Json)); omega⟩
    show parseFields (g + 1) ('\x7d' :: rest) = some ([], rest)
    simp [parseFields]
  | cons f t ih =>
    intro hP fuel rest hfuel
    obtain ⟨g, rfl⟩ : ∃ g, fuel = g + 1 :=
      ⟨fuel - 1, by have := neededFields_pos (f :: t); omega⟩
    obtain ⟨k, v⟩ := f
    have hmax : needed v ≤ g ∧ neededFields t ≤ g := by
      have hne : neededFields ((k, v) :: t) =
          1 + max (needed v) (neededFields t) := rfl
      constructor <;> omega
    cases t with
    | nil =>
      have hv := hP (k, v) (by simp) g ('\x7d' :: rest) hmax.1
        (numHeadSafe_cons v '\x7d' (by decide) rest)
      simp only [stringifyFields, quoteString, String.data_append,
        data_quote, data_colon, List.append_assoc, List.cons_append,
        List.singleton_append, List.nil_append]
      simp [parseFields, parseStringRest_escape, mk_data, hv]
    | cons f2 u =>
      have hv := hP (k, v) (by simp) g
        (',' :: ((stringifyFields (f2 :: u)).data ++ '\x7d' :: rest)) hmax.1
        (numHeadSafe_cons v ',' (by decide) _)
      have hrec := ih (fun z hz => hP z (List.mem_cons_of_mem (k, v) hz)) g
        rest hmax.2
      show parseFields (g + 1)
        ((quoteString k ++ ":" ++ stringify v ++ "," ++
          stringifyFields (f2 :: u)).data ++ '\x7d' :: rest) =
        some ((k, v) :: f2 :: u, rest)
      simp only [quoteString, String.data_append, data_quote, data_colon,
        data_comma, List.append_assoc, List.cons_append,
        List.singleton_append, List.nil_append]
      simp [parseFields, parseStringRest_escape, mk_data, hv, hrec]

theorem parseValue_rt_null : ValueRT .null := by
  intro fuel rest hfuel hrest
  obtain ⟨g, rfl⟩ : ∃ g, fuel = g + 1 := ⟨fuel - 1, by
    have := needed_pos Json.null; omega⟩
  show parseValue (g + 1) ('n' :: 'u' :: 'l' :: 'l' :: rest) =
    some (.null, rest)
  simp [parseValue]

theorem parseValue_rt_bool (b : Bool) : ValueRT (.bool b) := by
  intro fuel rest hfuel hrest
  obtain ⟨g, rfl⟩ : ∃ g, fuel = g + 1 := ⟨fuel - 1, by
    have := needed_pos (Json.bool b); omega⟩
  cases b with
  | false =>
    show parseValue (g + 1) ('f' :: 'a' :: 'l' :: 's' :: 'e' :: rest) =
      some (.bool false, rest)
    simp [parseValue]
  | true =>
    show parseValue (g + 1) ('t' :: 'r' :: 'u' :: 'e' :: rest) =
      some (.bool true, rest)
    simp [parseValue]

theorem parseValue_rt_str (s : String) : ValueRT (.str s) := by
  intro fuel rest hfuel hrest
  obtain ⟨g, rfl⟩ : ∃ g, fuel = g + 1 := ⟨fuel - 1, by
    have := needed_pos (Json.str s); omega⟩
  show parseValue (g + 1)
    (('"' :: ((escapeList s.data).data ++ ['"'])) ++ rest) =
    some (.str s, rest)
  rw [List.cons_append, List.append_assoc]
  simp only [List.singleton_append]
  simp [parseValue, parseStringRest_escape, mk_data]

theorem parseValue_rt_num (n : Int) : ValueRT (.num n) := by
  intro fuel rest hfuel hrest
  obtain ⟨g, rfl⟩ : ∃ g, fuel = g + 1 := ⟨fuel - 1, by
    have := needed_pos (Json.num n); omega⟩
  have hnd : headNotDigit rest := by
    cases rest with
    | nil => trivial
    | cons c lcs => exact hrest
  by_cases hneg : n < 0
  · have hs : stringify (.num n) = "-" ++ String.mk (natDigits n.natAbs) := by
      show intDec n = _
      rw [intDec, if_pos hneg]
      rfl
    rw [hs]
    show parseValue (g + 1) ('-' :: (natDigits n.natAbs ++ rest)) =
      some (.num n, rest)
    simp only [parseValue]
    rw [parseNat_spec n.natAbs rest hnd]
    have hval : (-(n.natAbs : Int)) = n := by omega
    simp only [Option.map_some']
    rw [hval]
  · have hs : (stringify (.num n)).data = natDigits n.natAbs := by
      show (intDec n).data = _
      rw [intDec, if_neg hneg]
      rfl
    rw [hs]
    obtain ⟨c, l, hd, hc⟩ := natDigits_head n.natAbs
    obtain ⟨hn', ht', hf', hq', hlb', hob', hm', -, -, -⟩ :=
      digit_head_cases c hc
    rw [hd, List.cons_append]
    have hpn : parseNat (c :: (l ++ rest)) = some (n.natAbs, rest) := by
      rw [← List.cons_append, ← hd]
      exact parseNat_spec n.natAbs rest hnd
    have hstep : parseValue (g + 1) (c :: (l ++ rest)) =
        (parseNat (c :: (l ++ rest))).map
          fun p => (Json.num (p.1 : Int), p.2) := by
      rw [parseValue.eq_9] <;>
        simp [hn', ht', hf', hq', hlb', hob', hm']
    rw [hstep, hpn]
    simp only [Option.map_some']
    have hval : ((n.natAbs : Int)) = n := Int.natAbs_of_nonneg (by omega)
    rw [hval]

theorem parseValue_rt : ∀ (v : Json) (fuel : Nat) (rest : List Char),
    needed v ≤ fuel → numHeadSafe v rest →
    parseValue fuel ((stringify v).data ++ rest) = some (v, rest)
  | .null, fuel, rest, hfuel, hrest => parseValue_rt_null fuel rest hfuel hrest
  | .bool b, fuel, rest, hfuel, hrest =>
    parseValue_rt_bool b fuel rest hfuel hrest
  | .str s, fuel, rest, hfuel, hrest => parseValue_rt_str s fuel rest hfuel hrest
  | .num n, fuel, rest, hfuel, hrest => parseValue_rt_num n fuel rest hfuel hrest
  | .arr items, fuel, rest, hfuel, hrest => by
    obtain ⟨g, rfl⟩ : ∃ g, fuel = g + 1 := ⟨fuel - 1, by
      have := needed_pos (Json.arr items); omega⟩
    have hfi : neededItems items ≤ g := by
      have hne : needed (Json.arr items) = 1 + neededItems items := rfl
      omega
    have hrec := parseItems_rt_aux items
      (fun x hx fuel' rest' h1 h2 => parseValue_rt x fuel' rest' h1 h2)
      g rest hfi
    show parseValue (g + 1)
      (('[' :: ((stringifyItems items).data ++ [']'])) ++ rest) =
      some (.arr items, rest)
    rw [List.cons_append, List.append_assoc]
    simp only [List.singleton_append]
    simp [parseValue, hrec]
  | .obj fields, fuel, rest, hfuel, hrest => by
    obtain ⟨g, rfl⟩ : ∃ g, fuel = g + 1 := ⟨fuel - 1, by
      have := needed_pos (Json.obj fields); omega⟩
    have hff : neededFields fields ≤ g := by
      have hne : needed (Json.obj fields) = 1 + neededFields fields := rfl
      omega
    have hrec := parseFields_rt_aux fields
      (fun kv hkv fuel' rest' h1 h2 => parseValue_rt kv.2 fuel' rest' h1 h2)
      g rest hff
    show parseValue (g + 1)
      (('\x7b' :: ((stringifyFields fields).data ++ ['\x7d'])) ++ rest) =
      some (.obj fields, rest)
    rw [List.cons_append, List.append_assoc]
    simp only [List.singleton_append]
    simp [parseValue, hrec]
termination_by v => sizeOf v
decreasing_by
  · have h := List.sizeOf_lt_of_mem hx
    simp_wf
    omega
  · have h := List.sizeOf_lt_of_mem hkv
    obtain ⟨k2, v2⟩ := kv
    simp_wf
    simp at h
    omega

theorem parseJson_stringify (v : Json) : parseJson (stringify v) = some v := by
  unfold parseJson
  have h := parseValue_rt v ((stringify v).length + 1) []
    (by have := needed_le v; omega) (numHeadSafe_nil v)
  rw [List.append_nil] at h
  simp [h]

/-! ## Claims -/

/-- Claim C2: `makeKey` is a pure function of the serialized body bytes —
byte-identical serializations give identical keys — and every key is the
fixed namespace prefix `"vroom:"` followed by a fixed-length (32 hex
character, 128-bit) content digest of those bytes. -/
theorem makeKey_pure_and_shaped :
    (∀ A B : Json, strBytes (stringify A) = strBytes (stringify B) →
      makeKey A = makeKey B) ∧
    (∀ body : Json, ∃ digest : String,
      makeKey body = "vroom:" ++ digest ∧ digest.length = 32) := by
  constructor
  · intro A B h
    simp only [makeKey, md5hex, h]
  · intro body
    exact ⟨md5hex (stringify body), rfl, md5hex_length _⟩

theorem makeKey_pure_and_shaped_witness :
    makeKey (Json.arr []) = makeKey (Json.arr []) :=
  makeKey_pure_and_shaped.1 (Json.arr []) (Json.arr []) rfl

/-- Claim C3 (corrected): a throwing `redis.get` is *not* treated as a
miss — the thrown error is not an axios error, so the generic catch
answers HTTP 500 `Internal server error`, the upstream is never contacted,
and no `X-Cache` header is set.  The store is left unchanged. -/
theorem cache_read_failure_returns_500 (store : Store) (now : Nat)
    (body : Json) (m : String) (upstream : UpstreamBehavior)
    (writeErr : Option String) :
    handlePost store now body (some m) upstream writeErr =
      ⟨⟨500, .obj [("error", .str "Internal server error")], none⟩,
        store, false⟩ := rfl

/-- Claim C3 counterexample: with the store unreachable for reads, a
request whose forward would have returned 200 is *not* forwarded and is
*not* tagged `MISS`, contradicting the claim at this concrete input. -/
theorem cache_read_failure_cx :
    ¬ ((handlePost [] 0 .null (some "ECONNREFUSED") (.responds 200 .null)
          none).forwarded = true ∧
       (handlePost [] 0 .null (some "ECONNREFUSED") (.responds 200 .null)
          none).response.xCache = some "MISS") := by
  decide

/-- Claim C4 (corrected): when the upstream returned 200 but the cache
write throws, the failure is *not* absorbed: the handler's catch block
answers HTTP 500 `Internal server error` instead of the upstream's
response (the store is unchanged; the forward did happen). -/
theorem cache_write_failure_returns_500 (store : Store) (now : Nat)
    (body d : Json) (m : String)
    (hmiss : storeGet store (makeKey body) now = none) :
    handlePost store now body none (.responds 200 d) (some m) =
      ⟨⟨500, .obj [("error", .str "Internal server error")], none⟩,
        store, true⟩ := by
  simp [handlePost, hmiss, forwardPath, axiosPostAlways, catchErr]

theorem cache_write_failure_returns_500_witness :
    handlePost [] 0 .null none (.responds 200 .null) (some "EPIPE") =
      ⟨⟨500, .obj [("error", .str "Internal server error")], none⟩,
        [], true⟩ :=
  cache_write_failure_returns_500 [] 0 .null .null "EPIPE" rfl

/-- Claim C4 counterexample: a 200 upstream response followed by a failing
cache write yields HTTP 500, not the upstream's status, at this concrete
input. -/
theorem cache_write_failure_cx :
    ¬ ((handlePost [] 0 .null none (.responds 200 (.str "ok"))
          (some "EPIPE")).response.status = 200) := by
  decide

/-- Claim C5 (corrected): on a cache miss where the upstream responded,
the client receives exactly the upstream status and body with disposition
`MISS` — provided any cache write performed did not throw (non-200
statuses never write, so for them this holds unconditionally).  When the
status is 200 and the write throws, the client instead receives HTTP
500. -/
theorem miss_passthrough (store : Store) (now : Nat) (body : Json)
    (st : Nat) (d : Json) (writeErr : Option String)
    (hmiss : storeGet store (makeKey body) now = none)
    (hw : st = 200 → writeErr = none) :
    (handlePost store now body none (.responds st d) writeErr).response.status
        = st ∧
    (handlePost store now body none (.responds st d) writeErr).response.body
        = d ∧
    (handlePost store now body none (.responds st d) writeErr).response.xCache
        = some "MISS" ∧
    (handlePost store now body none (.responds st d) writeErr).forwarded
        = true := by
  by_cases h200 : st = 200
  · subst h200
    rw [hw rfl]
    simp [handlePost, hmiss, forwardPath, axiosPostAlways]
  · simp [handlePost, hmiss, forwardPath, axiosPostAlways, h200]

theorem miss_passthrough_witness :
    (handlePost [] 0 .null none (.responds 404 (.num 0))
      (some "EPIPE")).response.status = 404 ∧
    (handlePost [] 0 .null none (.responds 404 (.num 0))
      (some "EPIPE")).response.body = .num 0 ∧
    (handlePost [] 0 .null none (.responds 404 (.num 0))
      (some "EPIPE")).response.xCache = some "MISS" ∧
    (handlePost [] 0 .null none (.responds 404 (.num 0))
      (some "EPIPE")).forwarded = true :=
  miss_passthrough [] 0 .null 404 (.num 0) (some "EPIPE") rfl (by decide)

/-- Claim C5 counterexample: a cache-miss request whose upstream responded
with status 200 does not receive that status when the cache write throws,
contradicting the unconditional passthrough claim at this concrete
input. -/
theorem miss_passthrough_cx :
    ¬ ((handlePost [] 0 (.num 7) none (.responds 200 (.str "r"))
          (some "ECONNRESET")).response.status = 200) := by
  decide

/-- Claim C6: a transport failure on forward (upstream never responded:
connection refused, DNS failure, timeout) yields HTTP 502 with a
structured payload whose `code` field is non-empty (`err.code ||
"EAXIOS"`), and the cache is not written. -/
theorem transport_failure_502 (store : Store) (now : Nat) (body : Json)
    (code : Option String) (msg : String) (writeErr : Option String)
    (hmiss : storeGet store (makeKey body) now = none) :
    (handlePost store now body none (.transport code msg)
        writeErr).response.status = 502 ∧
    (handlePost store now body none (.transport code msg)
        writeErr).response.body =
      .obj [("error", .str "Bad gateway to VROOM"),
            ("code", .str (jsOrD code "EAXIOS"))] ∧
    jsOrD code "EAXIOS" ≠ "" ∧
    (handlePost store now body none (.transport code msg) writeErr).store
      = store := by
  refine ⟨?_, ?_, jsOrD_ne_empty code, ?_⟩ <;>
    simp [handlePost, hmiss, forwardPath, axiosPostAlways, catchErr]

theorem transport_failure_502_witness :
    (handlePost [] 0 .null none (.transport none "timeout of 60000ms exceeded")
      none).response.status = 502 ∧
    jsOrD (none : Option String) "EAXIOS" ≠ "" ∧
    (handlePost [] 0 .null none (.transport none "timeout of 60000ms exceeded")
      none).store = [] := by
  have h := transport_failure_502 [] 0 .null none
    "timeout of 60000ms exceeded" none rfl
  exact ⟨h.1, h.2.2.1, h.2.2.2⟩

/-- Claim C10: a request whose cache lookup returns a stored (truthy)
value performs no upstream forward and no cache write: the store is
returned unchanged, whatever the upstream or the write outcome would have
been. -/
theorem hit_no_side_effects (store : Store) (now : Nat) (body : Json)
    (s : String) (upstream : UpstreamBehavior) (writeErr : Option String)
    (hhit : storeGet store (makeKey body) now = some s) (hne : s ≠ "") :
    (handlePost store now body none upstream writeErr).store = store ∧
    (handlePost store now body none upstream writeErr).forwarded = false := by
  simp only [handlePost, hhit, if_neg hne]
  cases hp : parseJson s <;> simp

theorem hit_no_side_effects_witness :
    (handlePost hitStore 0 Json.null none (.responds 500 .null)
      (some "EPIPE")).store = hitStore ∧
    (handlePost hitStore 0 Json.null none (.responds 500 .null)
      (some "EPIPE")).forwarded = false :=
  hit_no_side_effects hitStore 0 Json.null "null" (.responds 500 .null)
    (some "EPIPE") (by simp [hitStore, storeGet]) (by decide)

/-- Claim C8 (corrected): probes report a resolved response's own status
with `ok = status < 400`; but only statuses below 500 resolve — a 5xx
response is rejected by `validateStatus: status < 500`, so it is caught
like a transport error and reported as status 0 (not the upstream's
numeric status) with `ok = false`; a transport error likewise yields
status 0 and `ok = false` with the failure code/message.  Probes are total
functions: no failure propagates. -/
theorem probe_status_mapping :
    (∀ url profile st b, st < 400 →
      checkOSRMHealth url profile (.responds st b) =
        ⟨none, some profile, url, st, true, "OK"⟩) ∧
    (∀ url profile st b, 400 ≤ st → st < 500 →
      checkOSRMHealth url profile (.responds st b) =
        ⟨none, some profile, url, st, false, "HTTP " ++ natDec st⟩) ∧
    (∀ url profile st b, 500 ≤ st →
      (checkOSRMHealth url profile (.responds st b)).status = 0 ∧
      (checkOSRMHealth url profile (.responds st b)).ok = false) ∧
    (∀ url profile code msg,
      (checkOSRMHealth url profile (.transport code msg)).status = 0 ∧
      (checkOSRMHealth url profile (.transport code msg)).ok = false) ∧
    (∀ url profile st b, st < 400 →
      checkVroomHealth url profile (.responds st b) =
        ⟨some "vroom", some profile, url, st, true, "OK"⟩) ∧
    (∀ url profile st b, 400 ≤ st → st < 500 →
      checkVroomHealth url profile (.responds st b) =
        ⟨some "vroom", some profile, url, st, false, "HTTP " ++ natDec st⟩) ∧
    (∀ url profile st b, 500 ≤ st →
      (checkVroomHealth url profile (.responds st b)).status = 0 ∧
      (checkVroomHealth url profile (.responds st b)).ok = false) ∧
    (∀ url profile code msg,
      (checkVroomHealth url profile (.transport code msg)).status = 0 ∧
      (checkVroomHealth url profile (.transport code msg)).ok = false) := by
  refine ⟨?_, ?_, ?_, ?_, ?_, ?_, ?_, ?_⟩ <;>
    intro url profile
  · intro st b h
    simp [checkOSRMHealth, axiosValidate, show st < 500 by omega, h]
  · intro st b h4 h5
    simp [checkOSRMHealth, axiosValidate, h5, show ¬ st < 400 by omega]
  · intro st b h5
    simp [checkOSRMHealth, axiosValidate, show ¬ st < 500 by omega]
  · intro code msg
    simp [checkOSRMHealth, axiosValidate]
  · intro st b h
    simp [checkVroomHealth, axiosValidate, show st < 500 by omega, h]
  · intro st b h4 h5
    simp [checkVroomHealth, axiosValidate, h5, show ¬ st < 400 by omega]
  · intro st b h5
    simp [checkVroomHealth, axiosValidate, show ¬ st < 500 by omega]
  · intro code msg
    simp [checkVroomHealth, axiosValidate]

theorem probe_status_mapping_witness :
    checkOSRMHealth "http://osrm-motorbike:5000" "motorbike"
        (.responds 200 .null) =
      ⟨none, some "motorbike", "http://osrm-motorbike:5000", 200, true,
        "OK"⟩ ∧
    checkVroomHealth VROOM_URL "smalltruck" (.responds 404 .null) =
      ⟨some "vroom", some "smalltruck", VROOM_URL, 404, false,
        "HTTP " ++ natDec 404⟩ :=
  ⟨probe_status_mapping.1 _ _ 200 .null (by decide),
   probe_status_mapping.2.2.2.2.2.1 _ _ 404 .null (by decide) (by decide)⟩

/-- Claim C8 counterexample: a 503 upstream response to a routing-backend
probe is reported with status 0, not with the upstream's numeric status
503 as the claim asserts. -/
theorem probe_5xx_cx :
    (checkOSRMHealth "http://osrm-motorbike:5000" "motorbike"
      (.responds 503 .null)).status = 0 ∧
    ¬ ((checkOSRMHealth "http://osrm-motorbike:5000" "motorbike"
      (.responds 503 .null)).status = 503) := by
  decide

/-- Claim C9: the health report's aggregate `ok` is true iff every one of
the five probe results (two OSRM, two VROOM profiles, redis) is ok, and
the redis probe is ok iff the ping returned exactly `"PONG"`. -/
theorem health_aggregate_ok (o1 o2 v1 v2 : UpstreamBehavior)
    (ping : Except String String) :
    ((healthEndpoint o1 o2 v1 v2 ping).ok = true ↔
      ((checkOSRMHealth "http://osrm-motorbike:5000" "motorbike" o1).ok = true ∧
       (checkOSRMHealth "http://osrm-small-truck:5000" "smalltruck" o2).ok = true ∧
       (checkVroomHealth VROOM_URL "motorbike" v1).ok = true ∧
       (checkVroomHealth VROOM_URL "smalltruck" v2).ok = true ∧
       (checkRedisHealth ping).ok = true)) ∧
    ((checkRedisHealth ping).ok = true ↔ ping = Except.ok "PONG") := by
  constructor
  · simp [healthEndpoint, and_assoc]
  · cases ping with
    | ok pong => simp [checkRedisHealth]
    | error m => simp [checkRedisHealth]

/-- Claim C1: after a cache miss, the handler writes the serialized
upstream body back with TTL 3600 iff the upstream status is exactly 200
(the response is tagged `MISS` either way); for a non-200 status the store
is unchanged, so a later identical request misses again: it forwards
upstream and is tagged `MISS` too. -/
theorem cache_write_iff_200 :
    (∀ (store : Store) (now : Nat) (body : Json) (st : Nat) (d : Json),
      storeGet store (makeKey body) now = none →
      (handlePost store now body none (.responds st d) none).store =
        (if st = 200 then
          storeSetEx store (makeKey body) 3600 (stringify d) now
         else store) ∧
      (handlePost store now body none (.responds st d) none).response.xCache
        = some "MISS") ∧
    (∀ (store : Store) (now t2 : Nat) (body : Json) (st : Nat) (d : Json)
      (writeErr : Option String) (st2 : Nat) (d2 : Json),
      storeGet store (makeKey body) now = none → st ≠ 200 → now ≤ t2 →
      (handlePost store now body none (.responds st d) writeErr).store
        = store ∧
      (handlePost (handlePost store now body none (.responds st d)
          writeErr).store t2 body none (.responds st2 d2) none).forwarded
        = true ∧
      (handlePost (handlePost store now body none (.responds st d)
          writeErr).store t2 body none (.responds st2 d2)
          none).response.xCache = some "MISS") := by
  constructor
  · intro store now body st d hmiss
    by_cases h200 : st = 200
    · subst h200
      simp [handlePost, hmiss, forwardPath, axiosPostAlways]
    · simp [handlePost, hmiss, forwardPath, axiosPostAlways, h200]
  · intro store now t2 body st d writeErr st2 d2 hmiss hne hle
    have hstore :
        (handlePost store now body none (.responds st d) writeErr).store
          = store := by
      simp [handlePost, hmiss, forwardPath, axiosPostAlways, hne]
    have hmiss2 : storeGet store (makeKey body) t2 = none :=
      storeGet_none_mono store (makeKey body) now t2 hmiss hle
    refine ⟨hstore, ?_, ?_⟩ <;> rw [hstore] <;>
      by_cases h200 : st2 = 200 <;>
      simp [handlePost, hmiss2, forwardPath, axiosPostAlways, h200]

/-- Claim C7: after a request cached a 200 upstream response, an identical
request at any time strictly within the 3600-second TTL window is served
from the cache: status 200, disposition `HIT`, no forward, and a body
identical to the cached upstream body — the stored serialized body parses
back to exactly the value that was cached. -/
theorem cache_hit_roundtrip (store : Store) (t1 t2 : Nat) (body d : Json)
    (upstream2 : UpstreamBehavior) (writeErr2 : Option String)
    (hmiss : storeGet store (makeKey body) t1 = none)
    (hwin : t2 < t1 + 3600) :
    (handlePost (handlePost store t1 body none (.responds 200 d) none).store
      t2 body none upstream2 writeErr2).response.status = 200 ∧
    (handlePost (handlePost store t1 body none (.responds 200 d) none).store
      t2 body none upstream2 writeErr2).response.body = d ∧
    (handlePost (handlePost store t1 body none (.responds 200 d) none).store
      t2 body none upstream2 writeErr2).response.xCache = some "HIT" ∧
    (handlePost (handlePost store t1 body none (.responds 200 d) none).store
      t2 body none upstream2 writeErr2).forwarded = false := by
  have hstore1 : (handlePost store t1 body none (.responds 200 d) none).store
      = storeSetEx store (makeKey body) 3600 (stringify d) t1 := by
    simp [handlePost, hmiss, forwardPath, axiosPostAlways]
  have hget2 : storeGet
      (storeSetEx store (makeKey body) 3600 (stringify d) t1)
      (makeKey body) t2 = some (stringify d) := by
    unfold storeGet storeSetEx
    simp [hwin]
  rw [hstore1]
  simp [handlePost, hget2, stringify_ne_empty d, parseJson_stringify d]

theorem cache_hit_roundtrip_witness :
    (handlePost
      (handlePost [] 0 Json.null none
        (.responds 200 (Json.arr [Json.num 1])) none).store
      10 Json.null none (.responds 200 (Json.arr [Json.num 1]))
      none).response.status = 200 ∧
    (handlePost
      (handlePost [] 0 Json.null none
        (.responds 200 (Json.arr [Json.num 1])) none).store
      10 Json.null none (.responds 200 (Json.arr [Json.num 1]))
      none).response.body = Json.arr [Json.num 1] ∧
    (handlePost
      (handlePost [] 0 Json.null none
        (.responds 200 (Json.arr [Json.num 1])) none).store
      10 Json.null none (.responds 200 (Json.arr [Json.num 1]))
      none).response.xCache = some "HIT" ∧
    (handlePost
      (handlePost [] 0 Json.null none
        (.responds 200 (Json.arr [Json.num 1])) none).store
      10 Json.null none (.responds 200 (Json.arr [Json.num 1]))
      none).forwarded = false :=
  cache_hit_roundtrip [] 0 10 Json.null (Json.arr [Json.num 1])
    (.responds 200 (Json.arr [Json.num 1])) none rfl (by decide)

theorem cache_write_iff_200_witness :
    (handlePost [] 0 .null none (.responds 429 (.str "busy")) none).store
      = [] ∧
    (handlePost (handlePost [] 0 .null none (.responds 429 (.str "busy"))
        none).store 60 .null none (.responds 429 (.str "busy"))
        none).forwarded = true ∧
    (handlePost (handlePost [] 0 .null none (.responds 429 (.str "busy"))
        none).store 60 .null none (.responds 429 (.str "busy"))
        none).response.xCache = some "MISS" :=
  cache_write_iff_200.2 [] 0 60 .null 429 (.str "busy") none 429
    (.str "busy") rfl (by decide) (by decide)

end VroomProxy
